import Mathlib

/-!
Verification development for the Reticulum-rs transport core and channel.
The definitions below are a shallow embedding of `src/channel.rs` and
`src/transport.rs`: machine integers are modelled as `Nat` with explicit
`% 2^w` where wrap-around matters, fallible code returns `Except` or
`Option`, and floating-point RTT comparisons are abstracted into the
four-way classification the source branches on.
-/

namespace Reticulum

/-- Error kinds of the channel, from `ChannelError` in `channel.rs`. -/
inductive ChannelError where
  | NoMessageType
  | InvalidMessageType
  | NotRegistered
  | LinkNotReady
  | AlreadySent
  | TooBig
  | Misc
deriving DecidableEq, Repr

/-- Little-endian byte pair of a `u16` value, as `u16::to_le_bytes`. -/
def u16_le_bytes (n : Nat) : List Nat :=
  [n % 256, n / 256 % 256]

/-- Reconstruction of a `u16` from its little-endian byte pair, as
`u16::from_le_bytes`. -/
def u16_from_le_bytes (a b : Nat) : Nat :=
  a + 256 * b

/-- Embedding of `envelope_raw` (channel.rs lines 199-223): the 6-byte
header is message type, sequence (0 when absent) and payload size, each
written with `to_le_bytes`, followed by the payload. The size field is
the payload length cast to `u16`. -/
def envelope_raw (data : List Nat) (message_type : Nat) (sequence : Option Nat) : List Nat :=
  u16_le_bytes message_type
    ++ u16_le_bytes (sequence.getD 0)
    ++ u16_le_bytes (data.length % 65536)
    ++ data

/-- Embedding of `deenvelope_raw` (channel.rs lines 226-237): fails with
`Misc` on fewer than 6 bytes, otherwise reads the three header fields
with `from_le_bytes`. -/
def deenvelope_raw (data : List Nat) : Except ChannelError (Nat × Nat × Nat) :=
  match data with
  | b0 :: b1 :: b2 :: b3 :: b4 :: b5 :: _ =>
      Except.ok (u16_from_le_bytes b0 b1, u16_from_le_bytes b2 b3, u16_from_le_bytes b4 b5)
  | _ => Except.error ChannelError.Misc

/-- Modelled from the spec: `PACKET_MDU`, the per-packet maximum data
unit (`packet.rs` is outside the provided sources). The spec gives no
numeric value; it bounds packets by the interface MTU, for which 2048 is
the quoted example, so that value is used here. Any value below 65542
keeps the `u16` size field of the envelope header exact. -/
def PACKET_MDU : Nat := 2048

/-- Window constants of `channel.rs` lines 346-369. -/
def WINDOW : Nat := 2

def WINDOW_MIN : Nat := 2

def WINDOW_MIN_LIMIT_MEDIUM : Nat := 5

def WINDOW_MIN_LIMIT_FAST : Nat := 16

def WINDOW_MAX_SLOW : Nat := 5

def WINDOW_MAX_MEDIUM : Nat := 12

def WINDOW_MAX_FAST : Nat := 48

def WINDOW_MAX : Nat := WINDOW_MAX_FAST

def FAST_RATE_THRESHOLD : Nat := 10

def WINDOW_FLEXIBILITY : Nat := 4

def SEQ_MAX : Nat := 0xFFFF

/-- Embedding of `ChannelParams` (channel.rs lines 375-383). All fields
are `u16` in the source; they are modelled as `Nat` with explicit
wrap-around where an increment is unbounded. -/
structure ChannelParams where
  max_tries : Nat
  fast_rate_rounds : Nat
  medium_rate_rounds : Nat
  window : Nat
  window_max : Nat
  window_min : Nat
  window_flexibility : Nat
deriving DecidableEq, Repr

/-- Embedding of `ChannelParams::new` (channel.rs lines 386-398). -/
def ChannelParams.new (slow : Bool) : ChannelParams :=
  { max_tries := 5
  , fast_rate_rounds := 0
  , medium_rate_rounds := 0
  , window := if slow then 1 else WINDOW
  , window_max := if slow then 1 else WINDOW_MAX_SLOW
  , window_min := if slow then 1 else WINDOW_MIN
  , window_flexibility := if slow then 1 else WINDOW_FLEXIBILITY }

/-- Abstraction of the floating-point RTT comparisons in `adjust_params`
(channel.rs lines 450-476): `zero` is `rtt == 0.0`, `slow` is
`rtt > RTT_MEDIUM`, `medium` is `RTT_FAST < rtt ≤ RTT_MEDIUM`, and
`fast` is a nonzero `rtt ≤ RTT_FAST`. -/
inductive RttClass where
  | zero
  | fast
  | medium
  | slow
deriving DecidableEq, Repr

/-- Embedding of `adjust_params` (channel.rs lines 442-477): grow the
window by one when below `window_max`, then step the rate-round
counters; a band transition fires when the matching counter reaches
`FAST_RATE_THRESHOLD` while `window_max` is still below the band limit.
Counter increments are `u16` additions, hence the `% 65536`. -/
def adjust_params (rtt : RttClass) (p : ChannelParams) : ChannelParams :=
  let p1 := if p.window < p.window_max then { p with window := p.window + 1 } else p
  match rtt with
  | RttClass.zero => p1
  | RttClass.slow => { p1 with fast_rate_rounds := 0, medium_rate_rounds := 0 }
  | RttClass.medium =>
      let p2 := { p1 with fast_rate_rounds := 0
                        , medium_rate_rounds := (p1.medium_rate_rounds + 1) % 65536 }
      if p2.window_max < WINDOW_MAX_MEDIUM ∧ p2.medium_rate_rounds = FAST_RATE_THRESHOLD then
        { p2 with window_max := WINDOW_MAX_MEDIUM, window_min := WINDOW_MIN_LIMIT_MEDIUM }
      else p2
  | RttClass.fast =>
      let p2 := { p1 with fast_rate_rounds := (p1.fast_rate_rounds + 1) % 65536 }
      if p2.window_max < WINDOW_MAX_FAST ∧ p2.fast_rate_rounds = FAST_RATE_THRESHOLD then
        { p2 with window_max := WINDOW_MAX_FAST, window_min := WINDOW_MIN_LIMIT_FAST }
      else p2

/-- Embedding of the window-shrink step at the end of
`PacketTimeoutCallback::run_callback` (channel.rs lines 587-593):
decrement `window` when above `window_min`, and then also decrement
`window_max` when it exceeds `window_min + window_flexibility`. -/
def timeout_shrink (p : ChannelParams) : ChannelParams :=
  if p.window_min < p.window then
    let p1 := { p with window := p.window - 1 }
    if p1.window_min + p1.window_flexibility < p1.window_max then
      { p1 with window_max := p1.window_max - 1 }
    else p1
  else p

/-- The two operations that mutate `ChannelParams` after initialisation:
`adjust_params` runs on every delivery callback (and after a tear-down
pop), and the shrink step runs on every non-final timeout callback. -/
inductive ChannelOp where
  | adjust (rtt : RttClass)
  | shrink
deriving DecidableEq, Repr

/-- One parameter mutation. -/
def applyOp (op : ChannelOp) (p : ChannelParams) : ChannelParams :=
  match op with
  | ChannelOp.adjust rtt => adjust_params rtt p
  | ChannelOp.shrink => timeout_shrink p

/-- A sequence of parameter mutations applied in order: the reachable
parameter states of a channel are exactly `applyOps ops
(ChannelParams.new slow)`. -/
def applyOps (ops : List ChannelOp) (p : ChannelParams) : ChannelParams :=
  ops.foldl (fun q op => applyOp op q) p

/-- `u16::saturating_add`. -/
def saturating_add_u16 (a b : Nat) : Nat :=
  if 65535 < a + b then 65535 else a + b

/-- Embedding of the stale-sequence gate in `Channel::receive`
(channel.rs lines 820-827): when the incoming sequence is below
`next_rx_sequence`, compute `overflow = sequence.saturating_add
(WINDOW_MAX)` and drop the envelope (early return, before any ring
insertion) when `overflow >= next_rx_sequence` or `sequence >
overflow`; `true` means the envelope proceeds to the rx-ring. -/
def receive_gate (sequence next_rx_sequence : Nat) : Bool :=
  if sequence < next_rx_sequence then
    let overflow := saturating_add_u16 sequence WINDOW_MAX
    if next_rx_sequence ≤ overflow ∨ overflow < sequence then false else true
  else true

/-- The `Ord` instance of `Option<u16>` as used by
`env_sequence < ex_sequence` in `Channel::emplace_envelope`:
`None` is below every `Some`. -/
def optLt : Option Nat → Option Nat → Bool
  | none, some _ => true
  | some a, some b => decide (a < b)
  | _, _ => false

/-- The insertion condition of `Channel::emplace_envelope`
(channel.rs line 731) in release (wrapping) semantics. The source text
`!2*(self.next_rx_sequence - env_sequence.unwrap_or(0)) as u32 > SEQ_MAX`
parses as `((!2u32) * (((next_rx - seq) : u16) as u32)) > SEQ_MAX`:
a bitwise-complemented literal times the wrapped `u16` difference,
compared against `SEQ_MAX` in `u32`. -/
def emplace_wrap_cond (next_rx seqv : Nat) : Bool :=
  decide (SEQ_MAX <
    4294967293 * ((next_rx % 65536 + 65536 - seqv % 65536) % 65536) % 4294967296)

/-- Embedding of `Channel::emplace_envelope` (channel.rs lines 708-745)
in release semantics, on one ring: walk the ring; refuse a duplicate
sequence leaving the ring unchanged (`false`); insert before the first
entry with larger sequence when the wrap condition holds; otherwise
push to the back. -/
def emplace_envelope (next_rx : Nat) (env_seq : Option Nat) :
    List (Option Nat) → Bool × List (Option Nat)
  | [] => (true, [env_seq])
  | ex :: rest =>
      if env_seq = ex then (false, ex :: rest)
      else if optLt env_seq ex = true ∧ emplace_wrap_cond next_rx (env_seq.getD 0) = true then
        (true, env_seq :: ex :: rest)
      else
        let r := emplace_envelope next_rx env_seq rest
        (r.1, ex :: r.2)

/-- Checked (debug-build) `u16` subtraction: `none` is an underflow
panic. -/
def checked_sub_u16 (a b : Nat) : Option Nat :=
  if b ≤ a then some (a - b) else none

/-- Checked (debug-build) `u32` multiplication: `none` is an overflow
panic. -/
def checked_mul_u32 (a b : Nat) : Option Nat :=
  if a * b < 4294967296 then some (a * b) else none

/-- Embedding of `Channel::emplace_envelope` with debug-build checked
arithmetic: the outer `none` is a panic inside the insertion-position
computation (`u16` underflow in `next_rx_sequence - env_sequence`, or
`u32` overflow in the product with the complemented literal
`!2u32 = 4294967293`); `some (inserted, ring)` is a normal return. -/
def emplace_envelope_checked (next_rx : Nat) (env_seq : Option Nat) :
    List (Option Nat) → Option (Bool × List (Option Nat))
  | [] => some (true, [env_seq])
  | ex :: rest =>
      if env_seq = ex then some (false, ex :: rest)
      else if optLt env_seq ex = true then
        match checked_sub_u16 next_rx (env_seq.getD 0) with
        | none => none
        | some d =>
            match checked_mul_u32 4294967293 d with
            | none => none
            | some prod =>
                if SEQ_MAX < prod then some (true, env_seq :: ex :: rest)
                else
                  (emplace_envelope_checked next_rx env_seq rest).map
                    (fun r => (r.1, ex :: r.2))
      else
        (emplace_envelope_checked next_rx env_seq rest).map
          (fun r => (r.1, ex :: r.2))

/-- Link lifecycle states, from `LinkStatus` in the destination module. -/
inductive LinkStatus where
  | Pending
  | Active
  | Closed
deriving DecidableEq, Repr

/-- The channel state read and written by `Channel::send`: the outlet
link status and MDU, the tx-ring of envelope sequences, the rx-ring,
the sequence counters, and the adaptive parameters (channel.rs lines
627-636). -/
structure ChannelState where
  status : LinkStatus
  mdu : Nat
  txRing : List (Option Nat)
  rxRing : List (Option Nat)
  nextSequence : Nat
  nextRxSequence : Nat
  params : ChannelParams
deriving DecidableEq, Repr

/-- Embedding of `<Link as ChannelOutlet>::is_usable` (channel.rs lines
109-114): the link is usable exactly when its status is `Active`. -/
def is_usable (st : ChannelState) : Bool :=
  decide (st.status = LinkStatus.Active)

/-- Embedding of `Channel::is_ready_to_send` (channel.rs lines
854-879): not ready when the outlet is unusable; otherwise count the
outstanding envelopes of the tx-ring and require the count below the
current window. Every ring envelope shares the channel outlet and
`get_packet_state` always reports `Sent` (receipts are unimplemented),
so the outstanding count is the ring length. -/
def is_ready_to_send (st : ChannelState) : Bool :=
  is_usable st && decide (st.txRing.length < st.params.window)

/-- Embedding of `Channel::send` (channel.rs lines 910-961): refuse
with `LinkNotReady` when not ready; otherwise take `next_sequence`,
increment it (`u16` wrap), emplace the new envelope into the tx-ring,
pack it with `envelope_raw`, and only then refuse with `TooBig` when
the framed length exceeds the outlet MDU; on success report the
sequence that was sent. -/
def channel_send (st : ChannelState) (message_type : Option Nat) (payload : List Nat) :
    Except ChannelError Nat × ChannelState :=
  if is_ready_to_send st = false then (Except.error ChannelError.LinkNotReady, st)
  else
    let seq := st.nextSequence
    let st1 := { st with nextSequence := (st.nextSequence + 1) % 65536 }
    let st2 := { st1 with txRing := (emplace_envelope st1.nextRxSequence (some seq) st1.txRing).2 }
    match message_type with
    | none => (Except.error ChannelError.NoMessageType, st2)
    | some mt =>
        let raw := envelope_raw payload mt (some seq)
        if st2.mdu < raw.length then (Except.error ChannelError.TooBig, st2)
        else (Except.ok seq, st2)

/-- State touched by the timeout callback of one tracked envelope: its
retry counter, the number of times it has been handed to the outlet for
transmission, the adaptive parameters, both rings (as sequence lists),
and whether `ChannelOutlet::timed_out` has been invoked. -/
structure TimeoutState where
  tries : Nat
  transmissions : Nat
  params : ChannelParams
  txRing : List Nat
  rxRing : List Nat
  linkTimedOut : Bool
deriving DecidableEq, Repr

/-- Embedding of one timeout event for a tracked envelope:
`PacketTimeoutCallback::run_callback` (channel.rs lines 561-595)
followed by the ring handling in its `PacketCallback::run` (lines
601-621). When `tries as u16 > max_tries` the link is marked timed out
and the envelope is popped from the tx-ring; `shutdown` is not invoked
(line 566 leaves it as a TODO), so no other ring entry is touched and
no callback is cancelled, while `adjust_params` still runs after the
pop. Otherwise the retry counter is bumped, the packet is resent (one
more transmission), and the window shrinks. -/
def timeout_event (rtt : RttClass) (env_seq : Nat) (s : TimeoutState) : TimeoutState :=
  if s.params.max_tries < s.tries % 65536 then
    { s with linkTimedOut := true
           , txRing := s.txRing.erase env_seq
           , params := adjust_params rtt s.params }
  else
    { s with tries := s.tries + 1
           , transmissions := s.transmissions + 1
           , params := timeout_shrink s.params }

/-- `n` consecutive timeout events for the same envelope. -/
def iterate_timeout (rtt : RttClass) (env_seq : Nat) : Nat → TimeoutState → TimeoutState
  | 0, s => s
  | n + 1, s => iterate_timeout rtt env_seq n (timeout_event rtt env_seq s)

/-- The state right after `Channel::send` first transmits an envelope
with sequence 0 (channel.rs line 942 sets `tries` to 1): a second
envelope (sequence 7) also sits in the tx-ring and one out-of-order
envelope (sequence 5) sits in the rx-ring. -/
def after_first_send : TimeoutState :=
  { tries := 1
  , transmissions := 1
  , params := ChannelParams.new false
  , txRing := [0, 7]
  , rxRing := [5]
  , linkTimedOut := false }

/-- Packet kinds, from `PacketType` in the packet module. -/
inductive PacketType where
  | Announce
  | LinkRequest
  | Proof
  | Data
deriving DecidableEq, Repr

/-- The packet contexts the transport filter distinguishes, from
`PacketContext` in the packet module. -/
inductive PacketContext where
  | NoContext
  | LinkRequestProof
  | ChannelCtx
  | KeepAlive
deriving DecidableEq, Repr

/-- The packet fields read by the transport paths under study:
addresses and packet hashes are opaque identifiers modelled as `Nat`,
`hops` is the `u8` hop counter of the header. -/
structure TPacket where
  packetType : PacketType
  context : PacketContext
  destination : Nat
  hash : Nat
  hops : Nat
deriving DecidableEq, Repr

/-- Modelled from the spec: `LinkStatus::not_yet_active` (the link
module is outside the provided sources). The link lifecycle is
`Pending → Active → Closed`, so `Pending` is the only state before
activation. -/
def not_yet_active : LinkStatus → Bool
  | LinkStatus.Pending => true
  | _ => false

/-- Lookup in the `in_links` map, keyed by destination address. -/
def lookup_link : List (Nat × LinkStatus) → Nat → Option LinkStatus
  | [], _ => none
  | (k, v) :: rest, d => if k = d then some v else lookup_link rest d

/-- The transport-handler state read by `filter_duplicate_packets`:
the `in_links` map and the packet cache contents (a set of packet
hashes). -/
structure TransportState where
  inLinks : List (Nat × LinkStatus)
  cache : List Nat
deriving DecidableEq, Repr

/-- Modelled from the spec: `PacketCache::update(packet)` inserts the
packet hash and reports whether it was new (`packet_cache.rs` is
outside the provided sources). -/
def cache_update (cache : List Nat) (h : Nat) : Bool × List Nat :=
  if h ∈ cache then (false, cache) else (true, h :: cache)

/-- The `allow_duplicate` flag computed by
`TransportHandler::filter_duplicate_packets` (transport.rs lines
446-454): set for a `Proof` with context `LinkRequestProof` whose
destination matches an in-link that is not yet active. -/
def allow_duplicate (st : TransportState) (p : TPacket) : Bool :=
  match p.packetType with
  | PacketType.Proof =>
      decide (p.context = PacketContext.LinkRequestProof) &&
        (match lookup_link st.inLinks p.destination with
         | some l => not_yet_active l
         | none => false)
  | _ => false

/-- Embedding of `TransportHandler::filter_duplicate_packets`
(transport.rs lines 439-461): an `Announce` returns `true` at once
(without touching the cache); every other packet updates the cache and
is admitted when the cache reports it new or the duplicate exception
applies. -/
def filter_duplicate_packets (st : TransportState) (p : TPacket) :
    Bool × TransportState :=
  match p.packetType with
  | PacketType.Announce => (true, st)
  | _ =>
      let a := allow_duplicate st p
      let u := cache_update st.cache p.hash
      (u.1 || a, { st with cache := u.2 })

/-- Maximum hop count, transport.rs line 50. -/
def PATHFINDER_M : Nat := 128

/-- Embedding of `create_retransmit_packet` (transport.rs lines
852-868): copy the packet with `hops` incremented (`u8` addition). -/
def create_retransmit_packet (p : TPacket) : TPacket :=
  { p with hops := (p.hops + 1) % 256 }

/-- Modelled from the spec: the inbound pipeline drops packets whose
`hops` has reached `PATHFINDER_M` and otherwise may retransmit them via
`create_retransmit_packet`; the hop-limit check lives in the path and
announce table modules, which are outside the provided sources
(`manage_transport` in transport.rs dispatches to them). -/
def inbound_forward (p : TPacket) : Option TPacket :=
  if p.hops < PATHFINDER_M then some (create_retransmit_packet p) else none

/-- Both window-bound invariants that do survive every parameter
mutation: the window never exceeds `window_max`, and `window_min`
never exceeds `window_max`. -/
def WindowInv (p : ChannelParams) : Prop :=
  p.window ≤ p.window_max ∧ p.window_min ≤ p.window_max

/-- A concrete interleaving of delivery and timeout callbacks: nine
delivery rounds in the medium RTT band, two timeout shrinks, then a
tenth medium round, which fires the medium band transition. -/
def c4_trace : List ChannelOp :=
  List.replicate 9 (ChannelOp.adjust RttClass.medium) ++
    [ChannelOp.shrink, ChannelOp.shrink, ChannelOp.adjust RttClass.medium]

/-- A parameter state nine medium rounds in, still on the initial
window band. -/
def c4_pre_transition : ChannelParams :=
  { max_tries := 5
  , fast_rate_rounds := 0
  , medium_rate_rounds := 9
  , window := 2
  , window_max := 5
  , window_min := 2
  , window_flexibility := 4 }

/-- A channel over an active link whose outlet MDU is 8 bytes, with
empty rings and fresh counters. -/
def c5_state : ChannelState :=
  { status := LinkStatus.Active
  , mdu := 8
  , txRing := []
  , rxRing := []
  , nextSequence := 0
  , nextRxSequence := 0
  , params := ChannelParams.new false }

/-- Claim C1: `envelope_raw` was claimed to emit a big-endian 6-byte
header, with `envelope_raw([0x43,0x11,0x00], 0x1000, Some(10))` equal
to `[0x10,0x00, 0x00,0x0A, 0x00,0x03, 0x43,0x11,0x00]`. The source
uses `to_le_bytes`, so on that input it emits the little-endian bytes
`[0x00,0x10, 0x0A,0x00, 0x03,0x00, 0x43,0x11,0x00]` instead — even
though the unit test `test_envelope_raw` in channel.rs asserts the
big-endian bytes. -/
theorem C1_envelope_raw_little_endian :
    envelope_raw [0x43, 0x11, 0x00] 0x1000 (some 10)
      = [0x00, 0x10, 0x0A, 0x00, 0x03, 0x00, 0x43, 0x11, 0x00]
  ∧ envelope_raw [0x43, 0x11, 0x00] 0x1000 (some 10)
      ≠ [0x10, 0x00, 0x00, 0x0A, 0x00, 0x03, 0x43, 0x11, 0x00] := by
  decide

/-- Claim C2: the claim says an undelivered envelope is delivered or
tears the link down within at most 5 transmission attempts, with both
rings cleared and callbacks cancelled at tear-down. In the source the
timeout callback resends while `tries <= max_tries` and only tears
down when `tries > max_tries`, and the tear-down branch leaves
`shutdown` as a TODO: starting from the state after the first
transmission (`tries = 1`), the first five timeout events all resend —
six transmissions in total — the sixth event tears down, and at that
point the rx-ring is untouched and the other tx-ring entry remains. -/
theorem C2_timeout_teardown_behavior :
    (iterate_timeout RttClass.medium 0 5 after_first_send).linkTimedOut = false
  ∧ (iterate_timeout RttClass.medium 0 5 after_first_send).transmissions = 6
  ∧ (iterate_timeout RttClass.medium 0 6 after_first_send).linkTimedOut = true
  ∧ (iterate_timeout RttClass.medium 0 6 after_first_send).transmissions = 6
  ∧ (iterate_timeout RttClass.medium 0 6 after_first_send).rxRing = [5]
  ∧ (iterate_timeout RttClass.medium 0 6 after_first_send).txRing = [7] := by
  decide

/-- Claim C3, counterexample: with `next_rx_sequence = 1` the incoming
sequence 0 lies within 48 below it, so by the claim it would be
accepted; the gate in `Channel::receive` drops it. -/
theorem C3_wrap_window_counterexample :
    (0 : Nat) < 1 ∧ ¬ (receive_gate 0 1 = true ↔ 1 ≤ 0 + WINDOW_MAX) := by
  decide

/-- Claim C3, amended: for `u16` sequence values, a sequence below
`next_rx_sequence` passes the gate of `Channel::receive` if and only
if it is more than `WINDOW_MAX = 48` below it — `sequence + 48 <
next_rx_sequence` — the reverse of the claimed window test; sequences
within 48 below `next_rx_sequence` are dropped before reaching the
rx-ring. -/
theorem C3_receive_gate_amended (s n : Nat) (hs : s < 65536) (hn : n < 65536) :
    receive_gate s n = true ↔ (s < n → s + WINDOW_MAX < n) := by
  unfold receive_gate saturating_add_u16 WINDOW_MAX WINDOW_MAX_FAST
  split_ifs <;> simp_all <;> omega

theorem C3_receive_gate_amended_witness :
    (0 : Nat) < 65536 ∧ (50 : Nat) < 65536
  ∧ (receive_gate 0 50 = true ↔ ((0 : Nat) < 50 → 0 + WINDOW_MAX < 50)) :=
  ⟨by decide, by decide, C3_receive_gate_amended 0 50 (by decide) (by decide)⟩

/-- Claim C4, counterexample: after nine delivery rounds in the medium
RTT band, two timeout shrinks and a tenth medium round, the medium
band transition raises `window_min` to 5 while `window` is only 4, so
`window_min ≤ window` fails in a reachable state. -/
theorem C4_window_min_violation :
    ¬ ((applyOps c4_trace (ChannelParams.new false)).window_min ≤
        (applyOps c4_trace (ChannelParams.new false)).window) := by
  decide

theorem windowInv_new (slow : Bool) : WindowInv (ChannelParams.new slow) := by
  cases slow <;> exact ⟨by decide, by decide⟩

theorem windowInv_adjust (rtt : RttClass) (p : ChannelParams) (h : WindowInv p) :
    WindowInv (adjust_params rtt p) := by
  obtain ⟨h1, h2⟩ := h
  unfold adjust_params
  unfold WindowInv WINDOW_MAX_MEDIUM WINDOW_MIN_LIMIT_MEDIUM WINDOW_MAX_FAST
    WINDOW_MIN_LIMIT_FAST FAST_RATE_THRESHOLD at *
  cases rtt <;> dsimp only <;> split_ifs <;> simp_all <;> omega

theorem windowInv_shrink (p : ChannelParams) (h : WindowInv p) :
    WindowInv (timeout_shrink p) := by
  obtain ⟨h1, h2⟩ := h
  unfold timeout_shrink
  unfold WindowInv at *
  dsimp only
  split_ifs <;> simp_all <;> omega

theorem windowInv_applyOps (ops : List ChannelOp) (p : ChannelParams)
    (h : WindowInv p) : WindowInv (applyOps ops p) := by
  induction ops generalizing p with
  | nil => exact h
  | cons op rest ih =>
      have hstep : WindowInv (applyOp op p) := by
        cases op with
        | adjust rtt => exact windowInv_adjust rtt p h
        | shrink => exact windowInv_shrink p h
      exact ih (applyOp op p) hstep

/-- Claim C4, amended: in every state reachable from initialisation
through delivery callbacks (`adjust_params`) and timeout shrinks,
`window ≤ window_max` and `window_min ≤ window_max` hold — but not
`window_min ≤ window`, which a band transition can break. Moreover
`window_min` and `window_max` change only on the documented
transitions and the timeout shrink step: `adjust_params` moves them
only when a band transition fires (to 12/5 on the medium band, to
48/16 on the fast band, each only while `window_max` is below the band
limit), and the shrink step never moves `window_min` and lowers
`window_max` by one only while it exceeds
`window_min + window_flexibility`. -/
theorem C4_window_bounds_amended :
    (∀ (slow : Bool) (ops : List ChannelOp),
        (applyOps ops (ChannelParams.new slow)).window ≤
          (applyOps ops (ChannelParams.new slow)).window_max
      ∧ (applyOps ops (ChannelParams.new slow)).window_min ≤
          (applyOps ops (ChannelParams.new slow)).window_max)
  ∧ (∀ (p : ChannelParams) (rtt : RttClass),
        ((adjust_params rtt p).window_min ≠ p.window_min
          ∨ (adjust_params rtt p).window_max ≠ p.window_max) →
          (rtt = RttClass.medium ∧ p.window_max < WINDOW_MAX_MEDIUM
            ∧ (adjust_params rtt p).window_max = WINDOW_MAX_MEDIUM
            ∧ (adjust_params rtt p).window_min = WINDOW_MIN_LIMIT_MEDIUM)
        ∨ (rtt = RttClass.fast ∧ p.window_max < WINDOW_MAX_FAST
            ∧ (adjust_params rtt p).window_max = WINDOW_MAX_FAST
            ∧ (adjust_params rtt p).window_min = WINDOW_MIN_LIMIT_FAST))
  ∧ (∀ p : ChannelParams,
        (timeout_shrink p).window_min = p.window_min
      ∧ ((timeout_shrink p).window_max = p.window_max
          ∨ ((timeout_shrink p).window_max = p.window_max - 1
              ∧ p.window_min + p.window_flexibility < p.window_max))) := by
  refine ⟨fun slow ops => windowInv_applyOps ops _ (windowInv_new slow), ?_, ?_⟩
  · intro p rtt hchange
    unfold adjust_params at *
    cases rtt <;> dsimp only at * <;> split_ifs at * <;> simp_all
  · intro p
    unfold timeout_shrink
    dsimp only
    split_ifs <;> simp_all

theorem C4_window_bounds_amended_witness :
    (RttClass.medium = RttClass.medium ∧ c4_pre_transition.window_max < WINDOW_MAX_MEDIUM
      ∧ (adjust_params RttClass.medium c4_pre_transition).window_max = WINDOW_MAX_MEDIUM
      ∧ (adjust_params RttClass.medium c4_pre_transition).window_min = WINDOW_MIN_LIMIT_MEDIUM)
  ∨ (RttClass.medium = RttClass.fast ∧ c4_pre_transition.window_max < WINDOW_MAX_FAST
      ∧ (adjust_params RttClass.medium c4_pre_transition).window_max = WINDOW_MAX_FAST
      ∧ (adjust_params RttClass.medium c4_pre_transition).window_min = WINDOW_MIN_LIMIT_FAST) :=
  C4_window_bounds_amended.2.1 c4_pre_transition RttClass.medium (by decide)

/-- Claim C5, counterexample: on a ready channel whose outlet MDU is 8,
sending a 3-byte message frames to 9 bytes and returns `TooBig` — but
the envelope with sequence 0 has already been inserted into the
tx-ring, which the claim says stays unchanged. -/
theorem C5_toobig_after_emplace :
    (channel_send c5_state (some 0xff00) [1, 2, 3]).1 = Except.error ChannelError.TooBig
  ∧ (channel_send c5_state (some 0xff00) [1, 2, 3]).2.txRing = [some 0]
  ∧ c5_state.txRing = [] := by
  refine ⟨rfl, rfl, rfl⟩

theorem envelope_raw_length (data : List Nat) (mt : Nat) (s : Option Nat) :
    (envelope_raw data mt s).length = data.length + 6 := by
  simp [envelope_raw, u16_le_bytes]

/-- Claim C5, amended: `Channel::send` returns `TooBig` exactly when
the framed envelope exceeds the outlet MDU, but the rejection happens
after the envelope is inserted into the tx-ring: in the rejected-state
the tx-ring is the result of emplacing the new sequence, and
`next_sequence` has already been advanced. -/
theorem C5_toobig_amended (st : ChannelState) (mt : Nat) (payload : List Nat)
    (hready : is_ready_to_send st = true)
    (hbig : st.mdu < payload.length + 6) :
    (channel_send st (some mt) payload).1 = Except.error ChannelError.TooBig
  ∧ (channel_send st (some mt) payload).2.txRing =
      (emplace_envelope st.nextRxSequence (some st.nextSequence) st.txRing).2
  ∧ (channel_send st (some mt) payload).2.nextSequence = (st.nextSequence + 1) % 65536 := by
  unfold channel_send
  rw [hready]
  dsimp only
  rw [if_neg (by simp), if_pos (by rw [envelope_raw_length]; exact hbig)]
  exact ⟨rfl, rfl, rfl⟩

theorem C5_toobig_amended_witness :
    is_ready_to_send c5_state = true
  ∧ c5_state.mdu < ([1, 2, 3] : List Nat).length + 6
  ∧ ((channel_send c5_state (some 0xff00) [1, 2, 3]).1 = Except.error ChannelError.TooBig
      ∧ (channel_send c5_state (some 0xff00) [1, 2, 3]).2.txRing =
          (emplace_envelope c5_state.nextRxSequence (some c5_state.nextSequence)
            c5_state.txRing).2
      ∧ (channel_send c5_state (some 0xff00) [1, 2, 3]).2.nextSequence =
          (c5_state.nextSequence + 1) % 65536) :=
  ⟨by decide, by decide, C5_toobig_amended c5_state 0xff00 [1, 2, 3] (by decide) (by decide)⟩

/-- Claim C6: `Channel::send` returns `LinkNotReady` exactly when the
link status is not `Active` or the outstanding tx-ring envelope count
has reached the current window; the readiness predicate on the link is
`status == Active` (`is_usable`). -/
theorem C6_link_not_ready_iff (st : ChannelState) (mt : Option Nat) (payload : List Nat) :
    (channel_send st mt payload).1 = Except.error ChannelError.LinkNotReady
      ↔ (st.status ≠ LinkStatus.Active ∨ st.params.window ≤ st.txRing.length) := by
  have hiff : is_ready_to_send st = true ↔
      (st.status = LinkStatus.Active ∧ st.txRing.length < st.params.window) := by
    unfold is_ready_to_send is_usable
    simp
  by_cases h : is_ready_to_send st = true
  · obtain ⟨hA, hW⟩ := hiff.mp h
    have hne : (channel_send st mt payload).1 ≠ Except.error ChannelError.LinkNotReady := by
      unfold channel_send
      rw [if_neg (by simp [h])]
      rcases mt with _ | mtv
      · simp
      · dsimp only
        split_ifs <;> simp
    constructor
    · intro hc
      exact absurd hc hne
    · intro hc
      rcases hc with h1 | h2
      · exact absurd hA h1
      · omega
  · have hfalse : is_ready_to_send st = false := by
      revert h
      cases is_ready_to_send st <;> simp
    have hL : (channel_send st mt payload).1 = Except.error ChannelError.LinkNotReady := by
      unfold channel_send
      rw [if_pos hfalse]
    constructor
    · intro _
      by_cases hs : st.status = LinkStatus.Active
      · right
        by_contra hw
        exact h (hiff.mpr ⟨hs, by omega⟩)
      · left
        exact hs
    · intro _
      exact hL

/-- Claim C7: `filter_duplicate_packets` admits every `Announce`;
admits a `Proof` with context `LinkRequestProof` whose destination
matches a not-yet-active in-link regardless of the packet cache; and
admits every other packet exactly when the cache reports its hash as
new. -/
theorem C7_filter_duplicate_packets_spec (st : TransportState) (p : TPacket) :
    (p.packetType = PacketType.Announce → (filter_duplicate_packets st p).1 = true)
  ∧ (p.packetType = PacketType.Proof → p.context = PacketContext.LinkRequestProof →
      ∀ l, lookup_link st.inLinks p.destination = some l → not_yet_active l = true →
        (filter_duplicate_packets st p).1 = true)
  ∧ (p.packetType ≠ PacketType.Announce → allow_duplicate st p = false →
      ((filter_duplicate_packets st p).1 = true ↔ p.hash ∉ st.cache)) := by
  obtain ⟨pt, ctx, dst, hsh, hops⟩ := p
  refine ⟨?_, ?_, ?_⟩
  · intro hpt
    subst hpt
    rfl
  · intro hpt hctx l hlook hact
    subst hpt
    subst hctx
    have hdup : allow_duplicate st ⟨PacketType.Proof, PacketContext.LinkRequestProof, dst, hsh, hops⟩ = true := by
      unfold allow_duplicate
      dsimp only
      rw [hlook]
      simp [hact]
    show (let a := allow_duplicate st _; let u := cache_update st.cache hsh;
          (u.1 || a, { st with cache := u.2 })).1 = true
    rw [hdup]
    simp
  · intro hpt hdup
    cases pt <;> try exact absurd rfl hpt
    all_goals (
      show ((let a := allow_duplicate st _; let u := cache_update st.cache hsh;
            (u.1 || a, { st with cache := u.2 })).1 = true ↔ hsh ∉ st.cache)
      rw [hdup]
      unfold cache_update
      split_ifs with hmem <;> simp [hmem])

theorem C7_filter_witness :
    (filter_duplicate_packets ⟨[(7, LinkStatus.Pending)], [99]⟩
      ⟨PacketType.Proof, PacketContext.LinkRequestProof, 7, 99, 0⟩).1 = true :=
  (C7_filter_duplicate_packets_spec ⟨[(7, LinkStatus.Pending)], [99]⟩
    ⟨PacketType.Proof, PacketContext.LinkRequestProof, 7, 99, 0⟩).2.1
    rfl rfl LinkStatus.Pending rfl rfl

/-- Claim C8: every packet the transport retransmits carries a hop
count one larger — strictly greater — than the packet as received, and
an inbound packet whose hop count has reached `PATHFINDER_M = 128` is
dropped and never forwarded. The hop increment is
`create_retransmit_packet` from transport.rs; the hop-limit drop is
modelled from the spec because the table modules that enforce it are
outside the provided sources. -/
theorem C8_hop_monotonicity :
    (∀ p q : TPacket, inbound_forward p = some q → p.hops < q.hops ∧ q.hops = p.hops + 1)
  ∧ (∀ p : TPacket, PATHFINDER_M ≤ p.hops → inbound_forward p = none) := by
  constructor
  · intro p q h
    unfold inbound_forward at h
    split_ifs at h with hp
    obtain rfl := Option.some.inj h
    unfold create_retransmit_packet
    unfold PATHFINDER_M at hp
    have : (p.hops + 1) % 256 = p.hops + 1 := Nat.mod_eq_of_lt (by omega)
    simp [this]
  · intro p h
    unfold inbound_forward
    rw [if_neg (by omega)]

theorem C8_hop_witness :
    ((3 : Nat) < (create_retransmit_packet ⟨PacketType.Data, PacketContext.NoContext, 0, 0, 3⟩).hops
      ∧ (create_retransmit_packet ⟨PacketType.Data, PacketContext.NoContext, 0, 0, 3⟩).hops = 3 + 1)
  ∧ inbound_forward ⟨PacketType.Data, PacketContext.NoContext, 0, 0, 128⟩ = none :=
  ⟨C8_hop_monotonicity.1 ⟨PacketType.Data, PacketContext.NoContext, 0, 0, 3⟩
      (create_retransmit_packet ⟨PacketType.Data, PacketContext.NoContext, 0, 0, 3⟩) rfl,
    C8_hop_monotonicity.2 ⟨PacketType.Data, PacketContext.NoContext, 0, 0, 128⟩ (by decide)⟩

/-- Claim C9: for payload length at most `PACKET_MDU - 6` and `u16`
message type and sequence, `deenvelope_raw` applied to the output of
`envelope_raw` returns exactly the message type, the sequence and the
payload length, and the bytes after the 6-byte header are the payload. -/
theorem C9_envelope_roundtrip (payload : List Nat) (mt seq : Nat)
    (hmt : mt < 65536) (hseq : seq < 65536)
    (hlen : payload.length ≤ PACKET_MDU - 6) :
    deenvelope_raw (envelope_raw payload mt (some seq)) =
      Except.ok (mt, seq, payload.length)
  ∧ (envelope_raw payload mt (some seq)).drop 6 = payload := by
  have hsmall : payload.length < 65536 := by
    unfold PACKET_MDU at hlen
    omega
  have hfit : payload.length % 65536 = payload.length := Nat.mod_eq_of_lt hsmall
  have e1 : u16_from_le_bytes (mt % 256) (mt / 256 % 256) = mt := by
    unfold u16_from_le_bytes
    omega
  have e2 : u16_from_le_bytes (seq % 256) (seq / 256 % 256) = seq := by
    unfold u16_from_le_bytes
    omega
  have e3 : u16_from_le_bytes (payload.length % 256) (payload.length / 256 % 256) =
      payload.length := by
    unfold u16_from_le_bytes
    omega
  constructor
  · simp [envelope_raw, u16_le_bytes, deenvelope_raw, hfit, e1, e2, e3]
  · simp [envelope_raw, u16_le_bytes]

theorem C9_envelope_roundtrip_witness :
    deenvelope_raw (envelope_raw [7, 8, 9] 0xff00 (some 10)) =
      Except.ok (0xff00, 10, ([7, 8, 9] : List Nat).length)
  ∧ (envelope_raw [7, 8, 9] 0xff00 (some 10)).drop 6 = [7, 8, 9] :=
  C9_envelope_roundtrip [7, 8, 9] 0xff00 10 (by decide) (by decide) (by decide)

/-- Claim C10, counterexample: with `next_rx_sequence = 0`, emplacing
an envelope with sequence 3 into a ring holding sequence 4 — the
incoming sequence above `next_rx_sequence` and below the existing
entry, exactly the scenario of the claim — hits the `u16` underflow of
`next_rx_sequence - env_sequence` inside the insertion-position
computation: the checked embedding reports a panic instead of a normal
return. -/
theorem C10_emplace_underflow :
    emplace_envelope_checked 0 (some 3) [some 4] = none
  ∧ (0 : Nat) < 3 ∧ (3 : Nat) < 4 := by
  decide

/-- Claim C10, amended: the insertion-position computation of
`Channel::emplace_envelope` is not total — it underflows the `u16`
subtraction whenever the incoming sequence exceeds `next_rx_sequence`
while a larger entry is compared, and its `u32` product overflows
whenever the difference is at least 2 — but the duplicate-refusal part
survives: on a ring sorted in ascending sequence order, an envelope
whose sequence equals an existing entry is refused with the ring left
unchanged and no arithmetic reached. -/
theorem C10_emplace_amended (next_rx s : Nat) (ring : List (Option Nat))
    (hsorted : ring.Pairwise (fun a b => optLt b a = false))
    (hmem : some s ∈ ring) :
    emplace_envelope_checked next_rx (some s) ring = some (false, ring) := by
  induction ring with
  | nil => cases hmem
  | cons ex rest ih =>
      rw [List.pairwise_cons] at hsorted
      obtain ⟨hhead, htail⟩ := hsorted
      by_cases hex : some s = ex
      · unfold emplace_envelope_checked
        rw [if_pos hex]
      · have hmem2 : some s ∈ rest := by
          rcases List.mem_cons.mp hmem with h1 | h2
          · exact absurd h1 hex
          · exact h2
        have hlt : optLt (some s) ex = false := hhead (some s) hmem2
        unfold emplace_envelope_checked
        rw [if_neg hex, if_neg (by rw [hlt]; exact Bool.false_ne_true)]
        rw [ih htail hmem2]
        rfl

theorem C10_emplace_amended_witness :
    emplace_envelope_checked 0 (some 5) [some 2, some 5] = some (false, [some 2, some 5]) :=
  C10_emplace_amended 0 5 [some 2, some 5]
    (List.Pairwise.cons (by decide) (List.Pairwise.cons (by decide) List.Pairwise.nil))
    (by decide)

end Reticulum
